import Mathlib

/-
Verification of the Savitara client-side authentication flow.

This file gives a shallow embedding of the Google Sign-In / session logic of
the Savitara web client:

  * `AuthContext.jsx` (the auth session controller): `checkAuth`,
    `loginWithEmail`, `registerWithEmail`, `loginWithGoogle`,
    `completeGoogleLogin`, `cancelGoogleLogin`, `handleGoogleLogin`,
    `logout`, `updateUser`, `refreshUserData`;
  * `services/firebase.js`: `signInWithGoogle` (popup/redirect selection and
    the error-message mapping);
  * `components/RoleSelectionDialog.jsx`: the role-selection dialog contract.

Each JavaScript function is embedded as a pure Lean function from the
controller state (React state plus the two localStorage keys) and the
outcome of its awaited network calls to the new state, a list of observable
effects in program order, and the value/exception the promise settles with
(`Except`).  React state setters are modelled as immediate field updates,
which is faithful here because every function reads each piece of state at
most once before writing it.
-/

namespace Savitara

/-- A user record as consumed by the client.  Backend user payloads carry
`onboarded`; the client additionally reads a possible
`onboarding_completed` field (`userData.onboarded || userData.onboarding_completed`),
so both are modelled, with an absent JS field rendered as `false`. -/
structure UserData where
  id : String
  email : String
  name : String
  role : String
  status : String
  onboarded : Bool
  onboarding_completed : Bool
  credits : Nat
  profile_picture : String
  deriving DecidableEq

/-- The pending Google credential held until a role is selected
(`pendingGoogleAuth` in `AuthContext.jsx`). -/
structure PendingAuth where
  idToken : String
  userEmail : Option String
  deriving DecidableEq

/-- Controller state: the React state of `AuthProvider` plus the two
durable localStorage keys (`accessToken`, `refreshToken`). -/
structure AuthState where
  user : Option UserData
  loading : Bool
  pendingGoogleAuth : Option PendingAuth
  accessToken : Option String
  refreshToken : Option String
  deriving DecidableEq

/-- Observable effects, in program order.  `delay` models a `setTimeout`
pause; the current controller code emits none (the removed artificial
delays are exactly what the changelog's fix was about). -/
inductive Effect where
  | apiGetMe
  | apiPostLogin (email password : String)
  | apiPostRegister
  | apiPostGoogle (id_token role : String)
  | apiPostLogout
  | providerSignIn
  | firebaseSignOutEff
  | setItem (key value : String)
  | removeItem (key : String)
  | setUser (u : Option UserData)
  | navigate (path : String) (replaceFlag : Bool)
  | toastSuccess (msg : String)
  | toastError (msg : String)
  | toastInfo (msg : String)
  | log (msg : String)
  | delay (ms : Nat)
  deriving DecidableEq

/-- An axios-style error as the controller consumes it:
`error.response?.data?.detail`, `error.response?.data?.message`,
`error.message`. -/
structure ApiError where
  detail : Option String
  dataMessage : Option String
  message : Option String
  deriving DecidableEq

/-- Successful auth payload `{ access_token, refresh_token, user }`. -/
structure AuthPayload where
  access_token : String
  refresh_token : String
  user : UserData
  deriving DecidableEq

/-- A response body that may or may not be wrapped in the StandardResponse
envelope; the client unwraps it with `response.data.data || response.data`. -/
inductive AuthBody where
  | enveloped (p : AuthPayload)
  | plain (p : AuthPayload)
  deriving DecidableEq

/-- The duck-typed unwrap `response.data.data || response.data`. -/
def AuthBody.payload : AuthBody → AuthPayload
  | .enveloped p => p
  | .plain p => p

/-- Settled outcome of a `POST /auth/login` or `POST /auth/register` call. -/
inductive AuthResult where
  | ok (b : AuthBody)
  | err (e : ApiError)
  deriving DecidableEq

/-- A `GET /auth/me` body, again possibly enveloped. -/
inductive MeBody where
  | enveloped (u : UserData)
  | plain (u : UserData)
  deriving DecidableEq

/-- The unwrap `response.data.data || response.data` for `/auth/me`. -/
def MeBody.userData : MeBody → UserData
  | .enveloped u => u
  | .plain u => u

/-- Settled outcome of a `GET /auth/me` call. -/
inductive MeResult where
  | ok (b : MeBody)
  | err (e : ApiError)
  deriving DecidableEq

/-- Settled outcome of the backend exchange `POST /auth/google`.
`handleGoogleLogin` destructures `response.data.data` directly (no `||`
fallback on this path), so the success payload is the enveloped one. -/
inductive ExchangeResult where
  | ok (p : AuthPayload)
  | err (e : ApiError)
  deriving DecidableEq

/-! Firebase service (`services/firebase.js`). -/

/-- The profile fields `signInWithGoogle` extracts from the Firebase user. -/
structure FbUser where
  uid : String
  email : Option String
  displayName : Option String
  photoURL : Option String
  deriving DecidableEq

/-- A normalized credential `{ user, idToken }` returned by the popup path. -/
structure FbCredential where
  user : FbUser
  idToken : String
  deriving DecidableEq

/-- A raw Firebase auth error `{ code, message }`. -/
structure FbError where
  code : Option String
  message : Option String
  deriving DecidableEq

/-- The error thrown by `signInWithGoogle`: the mapped user-facing message
plus the original code. -/
structure EnhancedError where
  message : String
  code : Option String
  deriving DecidableEq

/-- The `switch (error.code)` mapping in `signInWithGoogle`. -/
def googleErrorMessage (e : FbError) : String :=
  match e.code with
  | some "auth/popup-closed-by-user" => "Sign-in cancelled. Please try again."
  | some "auth/popup-blocked" =>
      "Popup blocked by browser. Please allow popups and try again."
  | some "auth/operation-not-allowed" =>
      "Google Sign-In is not enabled. Please contact support."
  | some "auth/unauthorized-domain" =>
      "This domain is not authorized for Google Sign-In."
  | some "auth/network-request-failed" =>
      "Network error. Please check your internet connection."
  | some "auth/cancelled-popup-request" =>
      "Only one popup request is allowed at a time."
  | _ => e.message.getD "Google sign-in failed. Please try again."

/-- Outcome of the `signInWithPopup` round trip. -/
inductive PopupOutcome where
  | ok (c : FbCredential)
  | err (e : FbError)
  deriving DecidableEq

/-- `signInWithGoogle` from `services/firebase.js`: redirect on mobile
(resolving with `null` for this page lifetime), popup on desktop; a popup
failure is rethrown as an `EnhancedError` with the mapped message. -/
def signInWithGoogle (isMobile : Bool) (popup : PopupOutcome) :
    Except EnhancedError (Option FbCredential) :=
  if isMobile then
    .ok none
  else
    match popup with
    | .ok c => .ok (some c)
    | .err e => .error { message := googleErrorMessage e, code := e.code }

/-! AuthContext operations. -/

/-- The truthiness test `userData.onboarded || userData.onboarding_completed`. -/
def isOnboarded (u : UserData) : Bool :=
  u.onboarded || u.onboarding_completed

/-- The destination selection in `handleGoogleLogin`:
`const destination = isOnboarded ? "/" : "/onboarding"`. -/
def googleDestination (u : UserData) : String :=
  if isOnboarded u then "/" else "/onboarding"

/-- `checkAuth`: read both stored tokens; if either is missing just stop
loading; otherwise ask `GET /auth/me`, setting the user on success and
clearing both tokens and the user on failure. -/
def checkAuth (st : AuthState) (res : MeResult) : AuthState × List Effect :=
  match st.accessToken, st.refreshToken with
  | some _, some _ =>
      match res with
      | .ok b =>
          ({ st with user := some b.userData, loading := false },
           [.apiGetMe, .setUser (some b.userData)])
      | .err _ =>
          ({ st with accessToken := none, refreshToken := none,
                     user := none, loading := false },
           [.apiGetMe, .log "Auth check failed:",
            .removeItem "accessToken", .removeItem "refreshToken",
            .setUser none])
  | _, _ => ({ st with loading := false }, [])

/-- `loginWithEmail`: `POST /auth/login`, persist both tokens, set the
user, navigate by onboarding status (push, not replace), toast. -/
def loginWithEmail (st : AuthState) (email password : String)
    (res : AuthResult) : AuthState × List Effect × Except ApiError Unit :=
  match res with
  | .ok b =>
      let p := b.payload
      ({ st with accessToken := some p.access_token,
                 refreshToken := some p.refresh_token,
                 user := some p.user },
       [.apiPostLogin email password,
        .setItem "accessToken" p.access_token,
        .setItem "refreshToken" p.refresh_token,
        .setUser (some p.user),
        .navigate (if isOnboarded p.user then "/" else "/onboarding") false,
        .toastSuccess "Login successful!"],
       .ok ())
  | .err e =>
      (st,
       [.apiPostLogin email password,
        .log "Login failed:",
        .toastError (e.detail.getD "Login failed")],
       .error e)

/-- `registerWithEmail`: `POST /auth/register`, persist both tokens, set
the user, always navigate to onboarding; `loading` toggled around the call
(net effect: `false` on return). -/
def registerWithEmail (st : AuthState) (res : AuthResult) :
    AuthState × List Effect × Except ApiError Unit :=
  match res with
  | .ok b =>
      let p := b.payload
      ({ st with accessToken := some p.access_token,
                 refreshToken := some p.refresh_token,
                 user := some p.user, loading := false },
       [.apiPostRegister,
        .setItem "accessToken" p.access_token,
        .setItem "refreshToken" p.refresh_token,
        .setUser (some p.user),
        .navigate "/onboarding" false,
        .toastSuccess "Registration successful! Please complete your profile."],
       .ok ())
  | .err e =>
      ({ st with loading := false },
       [.apiPostRegister,
        .log "Registration failed:",
        .toastError (e.detail.getD (e.dataMessage.getD
          (e.message.getD "Registration failed. Please try again.")))],
       .error e)

/-- `loginWithGoogle`: with a legacy credential, hold it directly;
otherwise invoke the Firebase sign-in.  A `null` result means a redirect
was initiated (resolve with `undefined`); a credential is stored into
`pendingGoogleAuth` and `{ needsRoleSelection: true, userEmail }` is
returned; a provider error is toasted and rethrown.  No field of the
incoming state is consulted: there is no in-flight guard. -/
structure RoleSelectionRequest where
  needsRoleSelection : Bool
  userEmail : Option String
  deriving DecidableEq

def loginWithGoogle (st : AuthState) (legacyCredential : Option String)
    (provider : Except EnhancedError (Option FbCredential)) :
    AuthState × List Effect × Except EnhancedError (Option RoleSelectionRequest) :=
  match legacyCredential with
  | some tok =>
      ({ st with pendingGoogleAuth := some { idToken := tok, userEmail := none } },
       [],
       .ok (some { needsRoleSelection := true, userEmail := none }))
  | none =>
      match provider with
      | .ok none =>
          (st,
           [.providerSignIn,
            .log "Redirect initiated - user will return after authentication"],
           .ok none)
      | .ok (some c) =>
          ({ st with pendingGoogleAuth :=
              (some { idToken := c.idToken, userEmail := c.user.email }) },
           [.providerSignIn],
           .ok (some { needsRoleSelection := true, userEmail := c.user.email }))
      | .error e =>
          (st,
           [.providerSignIn, .log "Login failed:", .toastError e.message],
           .error e)

/-- `handleGoogleLogin`: `POST /auth/google { id_token, role }`; on success
persist both tokens, set the user, toast, and navigate (replace) to the
destination chosen from the fresh user record; on failure toast the
extracted message and rethrow the original error.  State is untouched on
failure. -/
def handleGoogleLogin (st : AuthState) (idToken role : String)
    (res : ExchangeResult) : AuthState × List Effect × Except ApiError Unit :=
  match res with
  | .ok p =>
      ({ st with accessToken := some p.access_token,
                 refreshToken := some p.refresh_token,
                 user := some p.user },
       [.log "Sending Google auth to backend with role:",
        .apiPostGoogle idToken role,
        .log "Google auth successful, user data:",
        .setItem "accessToken" p.access_token,
        .setItem "refreshToken" p.refresh_token,
        .setUser (some p.user),
        .toastSuccess "Welcome to Savitara!",
        .log "Navigating to:",
        .navigate (googleDestination p.user) true],
       .ok ())
  | .err e =>
      (st,
       [.log "Sending Google auth to backend with role:",
        .apiPostGoogle idToken role,
        .log "Backend login failed:",
        .toastError (e.detail.getD (e.dataMessage.getD "Authentication failed"))],
       .error e)

/-- `completeGoogleLogin(role)`: with nothing pending, toast an error and
return (the promise resolves normally); otherwise run the backend
exchange, clearing `pendingGoogleAuth` only after it succeeds — the
`catch` rethrows before the clearing line, so a failed exchange leaves the
credential in place. -/
def completeGoogleLogin (st : AuthState) (role : String)
    (res : ExchangeResult) : AuthState × List Effect × Except ApiError Unit :=
  match st.pendingGoogleAuth with
  | none =>
      (st, [.toastError "No pending authentication. Please try again."], .ok ())
  | some p =>
      match handleGoogleLogin st p.idToken role res with
      | (st2, tr, .ok _) =>
          ({ st2 with pendingGoogleAuth := none }, tr, .ok ())
      | (st2, tr, .error e) =>
          (st2,
           tr ++ [.log "Failed to complete Google login:",
                  .toastError (e.message.getD "Failed to complete login")],
           .error e)

/-- `cancelGoogleLogin`: clear the pending credential; nothing else. -/
def cancelGoogleLogin (st : AuthState) : AuthState × List Effect :=
  ({ st with pendingGoogleAuth := none }, [])

/-- `logout`: attempt the backend logout and the Firebase sign-out, each
in its own `try`/`catch` that only logs; then unconditionally remove both
tokens, clear the user, navigate to `/login` (push), and toast. -/
def logout (st : AuthState) (apiOk firebaseOk : Bool) :
    AuthState × List Effect :=
  ({ st with accessToken := none, refreshToken := none, user := none },
   [Effect.apiPostLogout] ++
   (if apiOk then [] else [Effect.log "Logout API failed:"]) ++
   [Effect.firebaseSignOutEff] ++
   (if firebaseOk then [] else [Effect.log "Firebase sign out failed:"]) ++
   [Effect.removeItem "accessToken", Effect.removeItem "refreshToken",
    Effect.setUser none,
    Effect.navigate "/login" false,
    Effect.toastInfo "Logged out successfully"])

/-- `updateUser`: set the in-memory user. -/
def updateUser (st : AuthState) (u : UserData) : AuthState :=
  { st with user := some u }

/-- `refreshUserData`: `GET /auth/me`; set the user on success, log on
failure, never touch the tokens. -/
def refreshUserData (st : AuthState) (res : MeResult) :
    AuthState × List Effect :=
  match res with
  | .ok b =>
      ({ st with user := some b.userData },
       [.apiGetMe, .setUser (some b.userData)])
  | .err _ =>
      (st, [.apiGetMe, .log "Failed to refresh user data:"])

/-! Role selection dialog (`components/RoleSelectionDialog.jsx`). -/

/-- Callbacks the dialog can fire: its two props `onSelectRole` and
`onClose`. -/
inductive DialogEvent where
  | onSelectRole (role : String)
  | onClose
  deriving DecidableEq

/-- User actions on the open dialog.  `dismiss` covers backdrop click and
the Escape key, both of which the Dialog routes to `onClose`. -/
inductive DialogAction where
  | chooseOption (role : String)
  | clickCancel
  | clickConfirm
  | dismiss
  deriving DecidableEq

/-- The `useState` initial value of `selectedRole`. -/
def dialogInitialRole : String := "grihasta"

/-- One user action on the dialog: the new `selectedRole` and the
callbacks fired, in order.  `handleConfirm` calls `onSelectRole(selectedRole)`
and then `onClose()`; the Cancel button and any dismissal call `onClose()`
alone. -/
def dialogStep (selectedRole : String) :
    DialogAction → String × List DialogEvent
  | .chooseOption r => (r, [])
  | .clickCancel => (selectedRole, [.onClose])
  | .clickConfirm => (selectedRole, [.onSelectRole selectedRole, .onClose])
  | .dismiss => (selectedRole, [.onClose])

/-! Sample values used in concrete witnesses and counterexamples. -/

/-- A concrete user record as returned by the backend. -/
def sampleUser : UserData :=
  { id := "507f1f77bcf86cd799439011", email := "user@example.com",
    name := "John Doe", role := "grihasta", status := "pending",
    onboarded := false, onboarding_completed := false, credits := 100,
    profile_picture := "" }

/-- The initial controller state. -/
def st0 : AuthState :=
  { user := none, loading := true, pendingGoogleAuth := none,
    accessToken := none, refreshToken := none }

/-- A concrete pending credential. -/
def credEx : PendingAuth := { idToken := "tok123", userEmail := some "a@x.com" }

/-- A state holding a pending credential. -/
def stPending : AuthState := { st0 with pendingGoogleAuth := some credEx }

/-- A concrete backend exchange failure. -/
def errEx : ApiError :=
  { detail := some "Email not verified with Google", dataMessage := none,
    message := some "Request failed with status code 400" }

/-- A concrete successful exchange payload. -/
def payloadEx : AuthPayload :=
  { access_token := "acc1", refresh_token := "ref1", user := sampleUser }

/-- A user record with `onboarded = false` but `onboarding_completed = true`;
the client's `onboarded || onboarding_completed` test treats it as
onboarded. -/
def halfOnboardedUser : UserData :=
  { sampleUser with onboarded := false, onboarding_completed := true }

/-- An exchange payload returning `halfOnboardedUser`. -/
def payloadHalf : AuthPayload :=
  { access_token := "acc2", refresh_token := "ref2", user := halfOnboardedUser }

/-- A concrete Firebase credential, first sign-in. -/
def fbCredA : FbCredential :=
  { user := { uid := "u1", email := some "a@x.com", displayName := none,
              photoURL := none },
    idToken := "tokA" }

/-- A concrete Firebase credential, second sign-in. -/
def fbCredB : FbCredential :=
  { user := { uid := "u2", email := some "b@y.com", displayName := none,
              photoURL := none },
    idToken := "tokB" }

/-- A first `loginWithGoogle` invocation resolved with credential A. -/
def firstLoginRun :
    AuthState × List Effect × Except EnhancedError (Option RoleSelectionRequest) :=
  loginWithGoogle st0 none (.ok (some fbCredA))

/-- A second `loginWithGoogle` invocation, begun while the first was still
awaiting the provider and resolved after it.  Because the code before
`loginWithGoogle`'s await reads no controller state, and its single state
write happens after the await, the interleaved event-loop run coincides
with sequential composition in resume order, which is what this term
denotes. -/
def secondLoginRun :
    AuthState × List Effect × Except EnhancedError (Option RoleSelectionRequest) :=
  loginWithGoogle firstLoginRun.1 none (.ok (some fbCredB))

/-- The controller's operation alphabet, used to quantify over
"any operation". -/
inductive AuthOp where
  | opCheckAuth (me : MeResult)
  | opLoginWithEmail (email pw : String) (r : AuthResult)
  | opRegisterWithEmail (r : AuthResult)
  | opLoginWithGoogle (legacy : Option String)
      (pr : Except EnhancedError (Option FbCredential))
  | opCompleteGoogleLogin (role : String) (ex : ExchangeResult)
  | opCancelGoogleLogin
  | opHandleGoogleLogin (idToken role : String) (ex : ExchangeResult)
  | opLogout (apiOk firebaseOk : Bool)
  | opUpdateUser (u : UserData)
  | opRefreshUserData (me : MeResult)

/-- The state reached by one controller operation. -/
def applyOp (st : AuthState) : AuthOp → AuthState
  | .opCheckAuth me => (checkAuth st me).1
  | .opLoginWithEmail email pw r => (loginWithEmail st email pw r).1
  | .opRegisterWithEmail r => (registerWithEmail st r).1
  | .opLoginWithGoogle legacy pr => (loginWithGoogle st legacy pr).1
  | .opCompleteGoogleLogin role ex => (completeGoogleLogin st role ex).1
  | .opCancelGoogleLogin => (cancelGoogleLogin st).1
  | .opHandleGoogleLogin idToken role ex => (handleGoogleLogin st idToken role ex).1
  | .opLogout apiOk firebaseOk => (logout st apiOk firebaseOk).1
  | .opUpdateUser u => updateUser st u
  | .opRefreshUserData me => (refreshUserData st me).1

/-! Claim theorems. -/

/-- C1 counterexample: with a credential pending, a failed backend
exchange leaves `pendingGoogleAuth` occupied — `completeGoogleLogin`
rethrows before reaching its clearing line, so the holder is not empty
after the call resolves, contrary to the claim's failure case. -/
theorem c1_counterexample :
    (completeGoogleLogin stPending "grihasta"
      (.err errEx)).1.pendingGoogleAuth ≠ none := by
  decide

/-- C1 (amended): for any credential placed into the holder, the holder is
empty after `completeGoogleLogin` resolves successfully or after
`cancelGoogleLogin`; after a failed exchange the credential is retained
(available for an explicit retry). -/
theorem c1_amended (st : AuthState) (c : PendingAuth) (role : String)
    (p : AuthPayload) (e : ApiError)
    (h : st.pendingGoogleAuth = some c) :
    (completeGoogleLogin st role (.ok p)).1.pendingGoogleAuth = none ∧
    (cancelGoogleLogin st).1.pendingGoogleAuth = none ∧
    (completeGoogleLogin st role (.err e)).1.pendingGoogleAuth = some c := by
  simp [completeGoogleLogin, handleGoogleLogin, cancelGoogleLogin, h]

/-- C1 witness: the amended statement at a concrete pending state. -/
theorem c1_amended_witness :
    stPending.pendingGoogleAuth = some credEx ∧
    ((completeGoogleLogin stPending "grihasta"
        (.ok payloadEx)).1.pendingGoogleAuth = none ∧
     (cancelGoogleLogin stPending).1.pendingGoogleAuth = none ∧
     (completeGoogleLogin stPending "grihasta"
        (.err errEx)).1.pendingGoogleAuth = some credEx) :=
  ⟨rfl, c1_amended stPending credEx "grihasta" payloadEx errEx rfl⟩

/-- C2 counterexample: with the holder empty, `completeGoogleLogin`
resolves with `Except.ok ()` — exactly what a successful completion
returns — so no `NoPendingAuthError` (nor any error value) reaches the
caller; the failure is only shown to the user as a toast. -/
theorem c2_counterexample :
    (completeGoogleLogin st0 "grihasta" (.err errEx)).2.2 = Except.ok () := by
  rfl

/-- C2 (amended): with the holder empty, `completeGoogleLogin` emits the
error notification toast, returns normally to the caller (its result is
the same `Except.ok ()` as on success), leaves the state unchanged, and
issues no `POST /auth/google` request. -/
theorem c2_amended (st : AuthState) (role : String) (res : ExchangeResult)
    (h : st.pendingGoogleAuth = none) :
    (completeGoogleLogin st role res).1 = st ∧
    (completeGoogleLogin st role res).2.1 =
      [.toastError "No pending authentication. Please try again."] ∧
    (completeGoogleLogin st role res).2.2 = Except.ok () ∧
    ∀ t r, Effect.apiPostGoogle t r ∉ (completeGoogleLogin st role res).2.1 := by
  simp [completeGoogleLogin, h]

/-- C2 witness: the amended statement at the initial (empty-holder)
state. -/
theorem c2_amended_witness :
    st0.pendingGoogleAuth = none ∧
    ((completeGoogleLogin st0 "grihasta" (.err errEx)).1 = st0 ∧
     (completeGoogleLogin st0 "grihasta" (.err errEx)).2.1 =
       [.toastError "No pending authentication. Please try again."] ∧
     (completeGoogleLogin st0 "grihasta" (.err errEx)).2.2 = Except.ok () ∧
     ∀ t r, Effect.apiPostGoogle t r ∉
       (completeGoogleLogin st0 "grihasta" (.err errEx)).2.1) :=
  ⟨rfl, c2_amended st0 "grihasta" (.err errEx) rfl⟩

/-- C7: when both tokens are stored but the `GET /auth/me` check fails,
`checkAuth` removes both tokens and sets the in-memory user to `none`, and
its effect list is exactly the identity request followed by the two
removals and the user reset. -/
theorem c7_failed_me_check (st : AuthState) (a r : String) (e : ApiError) :
    (checkAuth { st with accessToken := some a, refreshToken := some r }
        (.err e)).1.accessToken = none ∧
    (checkAuth { st with accessToken := some a, refreshToken := some r }
        (.err e)).1.refreshToken = none ∧
    (checkAuth { st with accessToken := some a, refreshToken := some r }
        (.err e)).1.user = none ∧
    (checkAuth { st with accessToken := some a, refreshToken := some r }
        (.err e)).2 =
      [.apiGetMe, .log "Auth check failed:",
       .removeItem "accessToken", .removeItem "refreshToken",
       .setUser none] := by
  simp [checkAuth]

/-- C9: `cancelGoogleLogin` clears the holder and changes nothing else —
the user, both tokens and the loading flag are untouched, and its effect
list is empty (no network call, no navigation). -/
theorem c9_cancel_frame (st : AuthState) :
    (cancelGoogleLogin st).1.pendingGoogleAuth = none ∧
    (cancelGoogleLogin st).1.user = st.user ∧
    (cancelGoogleLogin st).1.accessToken = st.accessToken ∧
    (cancelGoogleLogin st).1.refreshToken = st.refreshToken ∧
    (cancelGoogleLogin st).1.loading = st.loading ∧
    (cancelGoogleLogin st).2 = [] := by
  simp [cancelGoogleLogin]

/-- C3: on the successful exchange path the navigation command is the
last effect, with both token writes and the user update strictly before
it, and no timed delay occurs anywhere in the trace; on a failed exchange
no navigation command is emitted. -/
theorem c3_navigate_after_settle (st : AuthState) (idToken role : String)
    (p : AuthPayload) (e : ApiError) :
    (∃ pre, (handleGoogleLogin st idToken role (.ok p)).2.1 =
        pre ++ [.navigate (googleDestination p.user) true] ∧
      Effect.setItem "accessToken" p.access_token ∈ pre ∧
      Effect.setItem "refreshToken" p.refresh_token ∈ pre ∧
      Effect.setUser (some p.user) ∈ pre) ∧
    (∀ ms, Effect.delay ms ∉ (handleGoogleLogin st idToken role (.ok p)).2.1) ∧
    (∀ path b, Effect.navigate path b ∉
      (handleGoogleLogin st idToken role (.err e)).2.1) := by
  refine ⟨⟨[.log "Sending Google auth to backend with role:",
            .apiPostGoogle idToken role,
            .log "Google auth successful, user data:",
            .setItem "accessToken" p.access_token,
            .setItem "refreshToken" p.refresh_token,
            .setUser (some p.user),
            .toastSuccess "Welcome to Savitara!",
            .log "Navigating to:"], ?_, ?_, ?_, ?_⟩, ?_, ?_⟩ <;>
    simp [handleGoogleLogin]

/-- C4 counterexample: the fresh user record with `onboarded = false` but
`onboarding_completed = true` is routed to the home path `/`, not to the
onboarding path, because the code tests
`onboarded || onboarding_completed`. -/
theorem c4_counterexample :
    halfOnboardedUser.onboarded = false ∧
    (handleGoogleLogin st0 "tok123" "grihasta"
        (.ok payloadHalf)).2.1.getLast? = some (.navigate "/" true) ∧
    ("/" : String) ≠ "/onboarding" := by
  refine ⟨rfl, rfl, by decide⟩

/-- C4 (amended): after a successful exchange the destination is the home
path exactly when `onboarded || onboarding_completed` holds on the fresh
user record and the onboarding path exactly when it does not, the
navigation is the last effect, and every navigation effect on this path
uses replace semantics. -/
theorem c4_amended (st : AuthState) (idToken role : String) (p : AuthPayload) :
    ((googleDestination p.user = "/") ↔ isOnboarded p.user = true) ∧
    ((googleDestination p.user = "/onboarding") ↔ isOnboarded p.user = false) ∧
    (handleGoogleLogin st idToken role (.ok p)).2.1.getLast? =
      some (.navigate (googleDestination p.user) true) ∧
    (∀ path b, Effect.navigate path b ∈
        (handleGoogleLogin st idToken role (.ok p)).2.1 → b = true) := by
  refine ⟨?_, ?_, rfl, ?_⟩
  · cases h : isOnboarded p.user <;> simp [googleDestination, h]
  · cases h : isOnboarded p.user <;> simp [googleDestination, h]
  · intro path b hb
    simp [handleGoogleLogin] at hb
    exact hb.2

/-- C5 counterexample: a second `loginWithGoogle` begun while the first is
still awaiting the provider is neither rejected nor ignored — it performs
its own provider call, resolves with `needsRoleSelection`, and overwrites
the holder with the second credential (the first invocation had already
placed credential A there). -/
theorem c5_counterexample :
    secondLoginRun.2.2 = Except.ok
      (some { needsRoleSelection := true, userEmail := some "b@y.com" }) ∧
    Effect.providerSignIn ∈ secondLoginRun.2.1 ∧
    firstLoginRun.1.pendingGoogleAuth =
      some { idToken := "tokA", userEmail := some "a@x.com" } ∧
    secondLoginRun.1.pendingGoogleAuth =
      some { idToken := "tokB", userEmail := some "b@y.com" } := by
  refine ⟨rfl, ?_, rfl, rfl⟩
  simp [secondLoginRun, firstLoginRun, loginWithGoogle]

/-- C5 (amended): `loginWithGoogle` has no in-flight guard — its trace and
result are independent of the incoming controller state, so a concurrent
second invocation proceeds identically; it never issues a backend exchange
call itself, and when the provider yields a credential the single holder
slot is overwritten with it (last-write-wins). -/
theorem c5_amended (s1 s2 : AuthState) (legacy : Option String)
    (provider : Except EnhancedError (Option FbCredential))
    (c : FbCredential) :
    (loginWithGoogle s1 legacy provider).2 =
      (loginWithGoogle s2 legacy provider).2 ∧
    (∀ t r, Effect.apiPostGoogle t r ∉ (loginWithGoogle s1 legacy provider).2.1) ∧
    (loginWithGoogle s1 none (.ok (some c))).1.pendingGoogleAuth =
      some { idToken := c.idToken, userEmail := c.user.email } := by
  refine ⟨?_, ?_, by simp [loginWithGoogle]⟩
  · cases legacy with
    | some tok => rfl
    | none =>
      cases provider with
      | error e => rfl
      | ok v => cases v <;> rfl
  · intro t r
    cases legacy with
    | some tok => simp [loginWithGoogle]
    | none =>
      cases provider with
      | error e => simp [loginWithGoogle]
      | ok v => cases v <;> simp [loginWithGoogle]

/-- C6: every controller operation preserves the both-or-neither shape of
the stored token pair; a successful exchange leaves both tokens present
and `logout` leaves both absent. -/
theorem c6_token_atomicity (st : AuthState) (op : AuthOp)
    (h : st.accessToken.isNone = st.refreshToken.isNone)
    (idToken role : String) (p : AuthPayload) (a b : Bool) :
    ((applyOp st op).accessToken.isNone = (applyOp st op).refreshToken.isNone) ∧
    (applyOp st (.opHandleGoogleLogin idToken role (.ok p))).accessToken =
      some p.access_token ∧
    (applyOp st (.opHandleGoogleLogin idToken role (.ok p))).refreshToken =
      some p.refresh_token ∧
    (applyOp st (.opLogout a b)).accessToken = none ∧
    (applyOp st (.opLogout a b)).refreshToken = none := by
  refine ⟨?_, by simp [applyOp, handleGoogleLogin],
    by simp [applyOp, handleGoogleLogin], by simp [applyOp, logout],
    by simp [applyOp, logout]⟩
  cases op with
  | opCheckAuth me =>
    rcases hA : st.accessToken with _ | av <;>
      rcases hR : st.refreshToken with _ | rv <;>
      cases me <;> simp_all [applyOp, checkAuth]
  | opLoginWithEmail email pw r =>
    cases r <;> simp_all [applyOp, loginWithEmail]
  | opRegisterWithEmail r =>
    cases r <;> simp_all [applyOp, registerWithEmail]
  | opLoginWithGoogle legacy pr =>
    cases legacy with
    | some tok => simp_all [applyOp, loginWithGoogle]
    | none =>
      cases pr with
      | error e => simp_all [applyOp, loginWithGoogle]
      | ok v => cases v <;> simp_all [applyOp, loginWithGoogle]
  | opCompleteGoogleLogin role2 ex =>
    rcases hP : st.pendingGoogleAuth with _ | c <;> cases ex <;>
      simp_all [applyOp, completeGoogleLogin, handleGoogleLogin]
  | opCancelGoogleLogin => simp_all [applyOp, cancelGoogleLogin]
  | opHandleGoogleLogin idt rl ex =>
    cases ex <;> simp_all [applyOp, handleGoogleLogin]
  | opLogout a2 b2 => simp [applyOp, logout]
  | opUpdateUser u => simp_all [applyOp, updateUser]
  | opRefreshUserData me =>
    cases me <;> simp_all [applyOp, refreshUserData]

/-- C6 witness: the preservation statement at the initial state under a
concrete operation. -/
theorem c6_token_atomicity_witness :
    (st0.accessToken.isNone = st0.refreshToken.isNone) ∧
    (((applyOp st0 (.opLogout true true)).accessToken.isNone =
        (applyOp st0 (.opLogout true true)).refreshToken.isNone) ∧
     (applyOp st0 (.opHandleGoogleLogin "tok123" "grihasta"
        (.ok payloadEx))).accessToken = some payloadEx.access_token ∧
     (applyOp st0 (.opHandleGoogleLogin "tok123" "grihasta"
        (.ok payloadEx))).refreshToken = some payloadEx.refresh_token ∧
     (applyOp st0 (.opLogout true true)).accessToken = none ∧
     (applyOp st0 (.opLogout true true)).refreshToken = none) :=
  ⟨rfl, c6_token_atomicity st0 (.opLogout true true) rfl "tok123" "grihasta"
    payloadEx true true⟩

/-- C8 counterexample: confirming the dialog fires both callbacks for one
user action — `onSelectRole(selectedRole)` and then `onClose()` (the same
callback every cancellation path fires), so the two contract outcomes are
not mutually exclusive as claimed. -/
theorem c8_counterexample :
    (dialogStep dialogInitialRole .clickConfirm).2 =
      [.onSelectRole "grihasta", .onClose] ∧
    DialogEvent.onSelectRole "grihasta" ∈
      (dialogStep dialogInitialRole .clickConfirm).2 ∧
    DialogEvent.onClose ∈ (dialogStep dialogInitialRole .clickConfirm).2 := by
  refine ⟨rfl, by simp [dialogStep, dialogInitialRole],
    by simp [dialogStep, dialogInitialRole]⟩

/-- C8 (amended): the pre-selected role at mount is `grihasta`; Confirm
emits `onSelectRole` with the currently selected role and then also
invokes the close callback; Cancel and every dismissal emit exactly the
close callback (no silent, outcome-free dismissal exists); choosing an
option only updates the selection and emits nothing. -/
theorem c8_amended (sel r : String) :
    dialogInitialRole = "grihasta" ∧
    (dialogStep sel .clickConfirm).2 = [.onSelectRole sel, .onClose] ∧
    (dialogStep sel .clickCancel).2 = [.onClose] ∧
    (dialogStep sel .dismiss).2 = [.onClose] ∧
    dialogStep sel (.chooseOption r) = (r, []) := by
  exact ⟨rfl, rfl, rfl, rfl, rfl⟩

/-- C10: whatever the backend logout call and the Firebase sign-out do,
`logout` ends locally signed out: both tokens removed, the user `none`,
and a navigation to `/login` issued. -/
theorem c10_logout_total (st : AuthState) (apiOk firebaseOk : Bool) :
    (logout st apiOk firebaseOk).1.accessToken = none ∧
    (logout st apiOk firebaseOk).1.refreshToken = none ∧
    (logout st apiOk firebaseOk).1.user = none ∧
    Effect.navigate "/login" false ∈ (logout st apiOk firebaseOk).2 := by
  cases apiOk <;> cases firebaseOk <;> simp [logout]

end Savitara
